import Mathlib

/-!
# kubectl-du: a shallow embedding of `main.go`

The program lists the pods scheduled on one node, or on every node of the
cluster, and prints for each pod its name, its namespace and the number of
volumes its specification declares.

Conventions of the embedding.

* Standard output is the list of texts written to it, one entry per
  `fmt.Printf` / `fmt.Println` call of the source, newline included.
* Every call that leaves the program (credential loading, client
  construction, the two list requests) is appended to a log, so that "how
  many requests, in which order, with which arguments" is a property of the
  final state.
* A Go `error` is represented by its message, which is what `%v` prints.
* The answers of the cluster are given by a `Clientset` value; an answer may
  depend on the log of the calls made before it, so a request that fails
  once may succeed later.
* `os.Exit` is recorded in the field `exitCode`; nothing runs after it.
-/

namespace KubectlDu

/-! ## Data model (the parts of the Kubernetes API objects the program reads) -/

/-- Volume: an entry of `pod.Spec.Volumes`; only the number of entries is used. -/
structure Volume where
  Name : String
  deriving DecidableEq, Repr

/-- PodSpec: `NodeName` is the scheduling target, `Volumes` the declared volumes. -/
structure PodSpec where
  NodeName : String
  Volumes : List Volume
  deriving DecidableEq, Repr

/-- Pod: identified by name and namespace. -/
structure Pod where
  Name : String
  Namespace : String
  Spec : PodSpec
  deriving DecidableEq, Repr

/-- PodList: the answer of a pod-listing request. -/
structure PodList where
  Items : List Pod
  deriving DecidableEq, Repr

/-- Node: only the name is read. -/
structure Node where
  Name : String
  deriving DecidableEq, Repr

/-- NodeList: the answer of the node-listing request. -/
structure NodeList where
  Items : List Node
  deriving DecidableEq, Repr

/-- ListOptions: the source only ever sets `FieldSelector`; `ListOptions{}` has it empty. -/
structure ListOptions where
  FieldSelector : String
  deriving DecidableEq, Repr

/-- Config: the credentials produced by either credential source. -/
structure Config where
  Host : String
  deriving DecidableEq, Repr

/-- Call: one call leaving the program, with its arguments. -/
inductive Call where
  | buildConfigFromFlags (masterUrl kubeconfigPath : String)
  | inClusterConfig
  | newForConfig (config : Config)
  | nodesList (opts : ListOptions)
  | podsList (ns : String) (opts : ListOptions)
  deriving DecidableEq, Repr

/-- Clientset: the answers of the cluster API. The first argument of each
function is the log of the calls made before the request. -/
structure Clientset where
  nodesList : List Call → ListOptions → Except String NodeList
  podsList : List Call → String → ListOptions → Except String PodList

/-- Env: what the process finds around it: the environment variables and the
results of the two credential sources and of the client constructor. -/
structure Env where
  getenv : String → String
  buildConfigFromFlags : String → String → Except String Config
  inClusterConfig : Except String Config
  newForConfig : Config → Except String Clientset

/-- Globals: the package-level variables `namespace` and `nodeName`
(`namespace` is a reserved word, hence the underscore). -/
structure Globals where
  namespace_ : String
  nodeName : String
  deriving DecidableEq, Repr

/-- Proc: the observable state of the process. -/
structure Proc where
  stdout : List String
  calls : List Call
  exitCode : Option Nat
  deriving DecidableEq, Repr

/-- The state of a process that has done nothing yet. -/
def Proc.start : Proc := ⟨[], [], none⟩

/-- One write to standard output. -/
def Proc.print (s : Proc) (text : String) : Proc :=
  { s with stdout := s.stdout ++ [text] }

/-- Log one outgoing call. -/
def Proc.record (s : Proc) (c : Call) : Proc :=
  { s with calls := s.calls ++ [c] }

/-- Model of `os.Exit(code)`. -/
def Proc.osExit (s : Proc) (code : Nat) : Proc :=
  { s with exitCode := some code }

/-- Model of `strings.Repeat(s, count)`. -/
def strings.Repeat (s : String) (count : Nat) : String :=
  String.join (List.replicate count s)

/-! ## The functions of `main.go` -/

/-- Source: `displayPods` (lines 98-104): three writes per pod, in list order. -/
def displayPods (pods : PodList) (s : Proc) : Proc :=
  pods.Items.foldl
    (fun s pod =>
      let s := s.print ("Pod: " ++ pod.Name ++ ", Namespace: " ++ pod.Namespace ++ "\n")
      let s := s.print ("Volume Count: " ++ toString pod.Spec.Volumes.length ++ "\n")
      s.print (strings.Repeat "-" 40 ++ "\n"))
    s

/-- Source: `getPodDiskUsage` (lines 62-83). -/
def getPodDiskUsage (clientset : Clientset) (nodeName : String) (namespace_ : String)
    (s : Proc) : Proc :=
  let fieldSelector := "spec.nodeName=" ++ nodeName
  let listOptions : ListOptions := ⟨fieldSelector⟩
  if namespace_ ≠ "" then
    match clientset.podsList s.calls namespace_ listOptions with
    | .error err =>
      (s.record (.podsList namespace_ listOptions)).print ("Error getting pods: " ++ err ++ "\n")
    | .ok pods => displayPods pods (s.record (.podsList namespace_ listOptions))
  else
    match clientset.podsList s.calls "" listOptions with
    | .error err =>
      (s.record (.podsList "" listOptions)).print ("Error getting pods: " ++ err ++ "\n")
    | .ok pods => displayPods pods (s.record (.podsList "" listOptions))

/-- Source: `listNodesDiskUsage` (lines 85-96); it reads the global `namespace`. -/
def listNodesDiskUsage (g : Globals) (clientset : Clientset) (s : Proc) : Proc :=
  match clientset.nodesList s.calls ⟨""⟩ with
  | .error err => (s.record (.nodesList ⟨""⟩)).print ("Error getting nodes: " ++ err ++ "\n")
  | .ok nodes =>
    nodes.Items.foldl
      (fun s node =>
        let s := s.print ("Node: " ++ node.Name ++ "\n")
        getPodDiskUsage clientset node.Name g.namespace_ s)
      (s.record (.nodesList ⟨""⟩))

/-- Source: `rootCmd.Run` (lines 25-47). -/
def Run (env : Env) (g : Globals) (s : Proc) : Proc :=
  let kubeconfig := env.getenv "KUBECONFIG"
  let withConfig := fun (config : Config) (s : Proc) =>
    match env.newForConfig config with
    | .error err =>
      ((s.record (.newForConfig config)).print
        ("Error creating Kubernetes client: " ++ err ++ "\n")).osExit 1
    | .ok clientset =>
      if g.nodeName = "" then
        listNodesDiskUsage g clientset (s.record (.newForConfig config))
      else
        getPodDiskUsage clientset g.nodeName g.namespace_ (s.record (.newForConfig config))
  match env.buildConfigFromFlags "" kubeconfig with
  | .ok config => withConfig config (s.record (.buildConfigFromFlags "" kubeconfig))
  | .error _ =>
    let s := (s.record (.buildConfigFromFlags "" kubeconfig)).record .inClusterConfig
    match env.inClusterConfig with
    | .ok config => withConfig config s
    | .error err => (s.print ("Error creating config: " ++ err ++ "\n")).osExit 1

/-- Dispatch: what `rootCmd.Execute()` does with the command line before the
source's own code runs: it rejects the command line and returns an error
without calling `Run`, or it answers a help request without calling `Run`, or
it stores the flag values in the globals and calls `Run`. -/
inductive Dispatch where
  | usageError (err : String)
  | helpOnly
  | run (g : Globals)
  deriving DecidableEq, Repr

/-- Model of `rootCmd.Execute()`: the final state and the returned error. -/
def Execute (env : Env) (d : Dispatch) (s : Proc) : Proc × Option String :=
  match d with
  | .usageError err => (s, some err)
  | .helpOnly => (s, none)
  | .run g => (Run env g s, none)

/-- Source: `main` (lines 55-60). A process that called `os.Exit` inside `Run`
never comes back to `main`. -/
def main (env : Env) (d : Dispatch) (s : Proc) : Proc :=
  match Execute env d s with
  | (s1, err) =>
    match s1.exitCode with
    | some _ => s1
    | none =>
      match err with
      | some e => (s1.print (e ++ "\n")).osExit 1
      | none => s1

/-- The exit status of a finished process: the argument of `os.Exit`, or 0
when `main` returned. -/
def exitStatus (s : Proc) : Nat := s.exitCode.getD 0

/-! ## Flag registration (`init`, lines 50-53) -/

/-- Flag: one registered command-line flag. -/
structure Flag where
  Name : String
  Shorthand : String
  DefValue : String
  Usage : String
  deriving DecidableEq, Repr

/-- FlagSet: the flags registered so far, in registration order. -/
structure FlagSet where
  formal : List Flag
  deriving DecidableEq, Repr

/-- FlagPanic: the three ways in which registering a flag panics. -/
inductive FlagPanic where
  | flagRedefined (name : String)
  | shorthandTooLong (shorthand : String)
  | shorthandRedefined (shorthand : String)
  deriving DecidableEq, Repr

/-- Library contract of `pflag.FlagSet.AddFlag` (github.com/spf13/pflag, the
flag package behind cobra; not part of this repository): registering a flag
panics when the name is already registered, when the shorthand is longer than
one byte (`len(flag.Shorthand) > 1`, message `"<shorthand>" shorthand is more
than one ASCII character`), or when the shorthand is already taken. A panic is
the `error` result. -/
def FlagSet.AddFlag (f : FlagSet) (flag : Flag) : Except FlagPanic FlagSet :=
  if f.formal.any (fun x => x.Name == flag.Name) then
    .error (.flagRedefined flag.Name)
  else if flag.Shorthand = "" then
    .ok ⟨f.formal ++ [flag]⟩
  else if flag.Shorthand.utf8ByteSize > 1 then
    .error (.shorthandTooLong flag.Shorthand)
  else if f.formal.any (fun x => x.Shorthand == flag.Shorthand) then
    .error (.shorthandRedefined flag.Shorthand)
  else
    .ok ⟨f.formal ++ [flag]⟩

/-- Library contract of `pflag.FlagSet.StringVarP(p, name, shorthand, value, usage)`:
the variable receives the default value and the flag is added. The result is
the new flag set and the value of the variable. -/
def FlagSet.StringVarP (f : FlagSet) (name shorthand value usage : String) :
    Except FlagPanic (FlagSet × String) :=
  match f.AddFlag ⟨name, shorthand, value, usage⟩ with
  | .error p => .error p
  | .ok f1 => .ok (f1, value)

/-- Source: `init` (lines 50-53), run at start-up before `main`: the flag set
and the globals it leaves, or the panic. -/
def init : Except FlagPanic (FlagSet × Globals) :=
  match FlagSet.StringVarP ⟨[]⟩ "namespace" "ns" "" "Specify the namespace to filter pods" with
  | .error p => .error p
  | .ok (f1, namespace_) =>
    match f1.StringVarP "node" "" "" "Specify the node to check disk usage" with
    | .error p => .error p
    | .ok (f2, nodeName) => .ok (f2, ⟨namespace_, nodeName⟩)

/-! ## Specification-side definitions

The definitions below are not in the source. They spell out the words of the
specification, to be compared with the functions above. -/

/-- The three lines of the output format for one pod (specification, section 6). -/
def specPodBlock (pod : Pod) : List String :=
  ["Pod: " ++ pod.Name ++ ", Namespace: " ++ pod.Namespace ++ "\n",
   "Volume Count: " ++ toString pod.Spec.Volumes.length ++ "\n",
   "----------------------------------------\n"]

/-- The pod-listing request for one node and one namespace filter. -/
def specPodsCall (ns nodeName : String) : Call :=
  .podsList ns ⟨"spec.nodeName=" ++ nodeName⟩

/-- The output of the all-nodes path in the words of the specification: for
each node in list order, the header line followed by the output of the
single-node report for that node. The first argument is the call log at the
moment the report of the first node starts. -/
def specAllNodesOutput (clientset : Clientset) (ns : String) :
    List Call → List Node → List String
  | _, [] => []
  | hist, node :: rest =>
    ("Node: " ++ node.Name ++ "\n") ::
      ((getPodDiskUsage clientset node.Name ns ⟨[], hist, none⟩).stdout ++
        specAllNodesOutput clientset ns (hist ++ [specPodsCall ns node.Name]) rest)

/-- The credential phase in the words of the specification: the calls it makes
and the credentials it ends with. The configuration file named by `KUBECONFIG`
is tried first; only when that fails are the in-cluster credentials tried. -/
def specCredentials (env : Env) : List Call × Except String Config :=
  match env.buildConfigFromFlags "" (env.getenv "KUBECONFIG") with
  | .ok config => ([.buildConfigFromFlags "" (env.getenv "KUBECONFIG")], .ok config)
  | .error _ =>
    ([.buildConfigFromFlags "" (env.getenv "KUBECONFIG"), .inClusterConfig], env.inClusterConfig)

/-- The client phase in the words of the specification: the calls made up to
and including client construction, and the client obtained. -/
def specClient (env : Env) : List Call × Except String Clientset :=
  match specCredentials env with
  | (log, .ok config) => (log ++ [.newForConfig config], env.newForConfig config)
  | (log, .error err) => (log, .error err)

/-- Pod-listing requests among the logged calls. -/
def Call.isPodsList : Call → Bool
  | .podsList _ _ => true
  | _ => false

/-- Node-listing requests among the logged calls. -/
def Call.isNodesList : Call → Bool
  | .nodesList _ => true
  | _ => false

/-- The fatal condition in the words of the specification: credential
construction fails by both methods, or client construction from the obtained
credentials fails. -/
def specFatal (env : Env) : Bool :=
  match (specClient env).2 with
  | .error _ => true
  | .ok _ => false

/-- Listing requests of either kind among the logged calls. -/
def Call.isListing (c : Call) : Bool :=
  c.isPodsList || c.isNodesList

/-- A written line is a node header when it starts with `Node: `. -/
def isNodeHeader (line : String) : Bool :=
  "Node: ".data.isPrefixOf line.data

/-- A server that applies the request (specification, section 4.1): of the
pods it stores it returns those whose scheduling node makes the field
selector, restricted to the requested namespace unless that is empty. -/
def selectorServer (nodes : List Node) (store : List Pod) : Clientset :=
  { nodesList := fun _ _ => .ok ⟨nodes⟩
    podsList := fun _ ns opts =>
      .ok ⟨store.filter (fun p =>
        (ns == "" || p.Namespace == ns) &&
          opts.FieldSelector == "spec.nodeName=" ++ p.Spec.NodeName)⟩ }

/-! ## Concrete inputs used by the witnesses -/

/-- The pod of the scenarios: `p1` in `default` on `node-a`, two volumes. -/
def exPod : Pod := ⟨"p1", "default", ⟨"node-a", [⟨"data"⟩, ⟨"cache"⟩]⟩⟩

/-- A pod of namespace `kube-system` on `node-a`. -/
def exSystemPod : Pod := ⟨"p1", "kube-system", ⟨"node-a", []⟩⟩

/-- The cluster of the first scenario: nodes `node-a` and `node-b`, one pod. -/
def exCluster : Clientset := selectorServer [⟨"node-a"⟩, ⟨"node-b"⟩] [exPod]

/-- An environment whose `KUBECONFIG` credentials work and lead to `exCluster`. -/
def exEnv : Env :=
  { getenv := fun _ => "/home/user/.kube/config"
    buildConfigFromFlags := fun _ _ => .ok ⟨"https://cluster.example:6443"⟩
    inClusterConfig := .error "not running in a cluster"
    newForConfig := fun _ => .ok exCluster }

/-- A cluster whose node listing fails. -/
def exBrokenCluster : Clientset :=
  { nodesList := fun _ _ => .error "connection refused"
    podsList := fun _ _ _ => .ok ⟨[]⟩ }

/-- An environment whose client reaches `exBrokenCluster`. -/
def exBrokenEnv : Env :=
  { getenv := fun _ => "/home/user/.kube/config"
    buildConfigFromFlags := fun _ _ => .ok ⟨"https://cluster.example:6443"⟩
    inClusterConfig := .error "not running in a cluster"
    newForConfig := fun _ => .ok exBrokenCluster }

/-- The call log when the report of `node-b` starts in the three-node example. -/
def exHistB : List Call :=
  [Call.nodesList ⟨""⟩, Call.podsList "" ⟨"spec.nodeName=node-a"⟩]

/-- A cluster of three nodes whose pod listing fails at the moment `node-b`
is asked about and answers like `exCluster` otherwise. -/
def exFlakyCluster : Clientset :=
  { nodesList := fun _ _ => .ok ⟨[⟨"node-a"⟩, ⟨"node-b"⟩, ⟨"node-c"⟩]⟩
    podsList := fun hist ns opts =>
      if hist = exHistB then .error "timeout" else exCluster.podsList hist ns opts }

/-- The same cluster with the failing answer replaced by an empty pod list. -/
def exHealedCluster : Clientset :=
  { nodesList := exFlakyCluster.nodesList
    podsList := fun hist ns opts =>
      if hist = exHistB then .ok ⟨[]⟩ else exFlakyCluster.podsList hist ns opts }

/-- An environment with no usable configuration file whose in-cluster
credentials work and lead to `exCluster`. -/
def exInClusterEnv : Env :=
  { getenv := fun _ => ""
    buildConfigFromFlags := fun _ _ => .error "invalid configuration: no configuration has been provided"
    inClusterConfig := .ok ⟨"https://10.0.0.1:443"⟩
    newForConfig := fun _ => .ok exCluster }

/-! ## Auxiliary lemmas -/

theorem displayPods_eq (pods : PodList) (s : Proc) :
    displayPods pods s
      = ⟨s.stdout ++ pods.Items.flatMap specPodBlock, s.calls, s.exitCode⟩ := by
  obtain ⟨items⟩ := pods
  simp only [displayPods]
  induction items generalizing s with
  | nil => simp
  | cons p ps ih =>
    have hrep : strings.Repeat "-" 40 ++ "\n" = "----------------------------------------\n" := by
      decide
    rw [List.foldl_cons, ih]
    simp [Proc.print, specPodBlock, hrep]

theorem getPodDiskUsage_eq (c : Clientset) (n ns : String) (s : Proc) :
    getPodDiskUsage c n ns s
      = ⟨s.stdout ++ (getPodDiskUsage c n ns ⟨[], s.calls, none⟩).stdout,
          s.calls ++ [specPodsCall ns n], s.exitCode⟩ := by
  by_cases h : ns = ""
  · subst h
    simp only [getPodDiskUsage, specPodsCall]
    cases c.podsList s.calls "" ⟨"spec.nodeName=" ++ n⟩ <;>
      simp [displayPods_eq, Proc.print, Proc.record]
  · simp only [getPodDiskUsage, specPodsCall, if_pos h, ne_eq, not_false_eq_true]
    cases c.podsList s.calls ns ⟨"spec.nodeName=" ++ n⟩ <;>
      simp [displayPods_eq, Proc.print, Proc.record]

theorem nodeLoop_eq (c : Clientset) (ns : String) (nodes : List Node) (s : Proc) :
    nodes.foldl
        (fun s node => getPodDiskUsage c node.Name ns (s.print ("Node: " ++ node.Name ++ "\n")))
        s
      = ⟨s.stdout ++ specAllNodesOutput c ns s.calls nodes,
          s.calls ++ nodes.map (fun n => specPodsCall ns n.Name), s.exitCode⟩ := by
  induction nodes generalizing s with
  | nil => simp [specAllNodesOutput]
  | cons n rest ih =>
    rw [List.foldl_cons, ih, getPodDiskUsage_eq]
    simp [specAllNodesOutput, Proc.print]

theorem flatMap_specPodBlock_getElem? (items : List Pod) (i k : Nat) (h : i < items.length)
    (hk : k < 3) :
    (items.flatMap specPodBlock)[3 * i + k]? = (specPodBlock items[i])[k]? := by
  induction items generalizing i with
  | nil => simp at h
  | cons p ps ih =>
    cases i with
    | zero =>
      rcases k with _ | _ | _ | k
      · simp [List.flatMap_cons, specPodBlock]
      · simp [List.flatMap_cons, specPodBlock]
      · simp [List.flatMap_cons, specPodBlock]
      · omega
    | succ j =>
      have hj : j < ps.length := by simpa using h
      have e : 3 * (j + 1) + k = (3 * j + k) + 1 + 1 + 1 := by omega
      rw [e, List.flatMap_cons]
      simp only [specPodBlock, List.cons_append, List.nil_append, List.getElem?_cons_succ]
      simpa [specPodBlock] using ih j hj

/-! ## The claims, each with the lemmas it needs -/

/-- C1: for every pod list given to `displayPods` and every pod in it (the pod
at position `i`), the second of the three lines printed for that pod is
`Volume Count: ` followed by the decimal rendering of the number of entries of
that pod's `Spec.Volumes`; with 3 volumes the line reads `Volume Count: 3`, with
none `Volume Count: 0`. -/
theorem displayPods_volume_count_line (pods : PodList) (s : Proc) (i : Nat)
    (h : i < pods.Items.length) :
    (displayPods pods s).stdout[s.stdout.length + 3 * i]?
        = some ("Pod: " ++ pods.Items[i].Name ++ ", Namespace: " ++ pods.Items[i].Namespace ++ "\n")
      ∧ (displayPods pods s).stdout[s.stdout.length + 3 * i + 1]?
        = some ("Volume Count: " ++ toString pods.Items[i].Spec.Volumes.length ++ "\n")
      ∧ (pods.Items[i].Spec.Volumes.length = 3 →
          (displayPods pods s).stdout[s.stdout.length + 3 * i + 1]? = some "Volume Count: 3\n")
      ∧ (pods.Items[i].Spec.Volumes.length = 0 →
          (displayPods pods s).stdout[s.stdout.length + 3 * i + 1]? = some "Volume Count: 0\n") := by
  have h0 := flatMap_specPodBlock_getElem? pods.Items i 0 h (by decide)
  have h1 := flatMap_specPodBlock_getElem? pods.Items i 1 h (by decide)
  have e0 : (displayPods pods s).stdout[s.stdout.length + 3 * i]?
      = (pods.Items.flatMap specPodBlock)[3 * i + 0]? := by
    rw [displayPods_eq]
    simp [List.getElem?_append_right]
  have e1 : (displayPods pods s).stdout[s.stdout.length + 3 * i + 1]?
      = (pods.Items.flatMap specPodBlock)[3 * i + 1]? := by
    rw [displayPods_eq]
    simp [List.getElem?_append_right, Nat.add_assoc]
  refine ⟨?_, ?_, ?_, ?_⟩
  · rw [e0, h0]; simp [specPodBlock]
  · rw [e1, h1]; simp [specPodBlock]
  · intro h3; rw [e1, h1]; simp [specPodBlock, h3]; decide
  · intro h3; rw [e1, h1]; simp [specPodBlock, h3]; decide

/-- Witness for C1: a list of two pods, the second with three volumes. -/
theorem displayPods_volume_count_line_witness :
    (displayPods ⟨[⟨"p0", "default", ⟨"node-a", []⟩⟩,
        ⟨"p1", "default", ⟨"node-a", [⟨"a"⟩, ⟨"b"⟩, ⟨"c"⟩]⟩⟩]⟩ Proc.start).stdout[4]?
      = some "Volume Count: 3\n" :=
  (displayPods_volume_count_line
    ⟨[⟨"p0", "default", ⟨"node-a", []⟩⟩, ⟨"p1", "default", ⟨"node-a", [⟨"a"⟩, ⟨"b"⟩, ⟨"c"⟩]⟩⟩]⟩
    Proc.start 1 (by decide)).2.2.1 (by decide)

/-- C8: for every pod list, `displayPods` appends to standard output, for each
pod in the order of the list, the line `Pod: <name>, Namespace: <namespace>`,
the line `Volume Count: <n>` and a separator of exactly 40 `-` characters,
which makes 3*m lines for m pods; it makes no call and does not exit; an empty
list prints nothing. -/
theorem displayPods_prints_three_lines_per_pod (pods : PodList) (s : Proc) :
    (displayPods pods s).stdout
        = s.stdout ++ pods.Items.flatMap (fun pod =>
            ["Pod: " ++ pod.Name ++ ", Namespace: " ++ pod.Namespace ++ "\n",
             "Volume Count: " ++ toString pod.Spec.Volumes.length ++ "\n",
             String.mk (List.replicate 40 '-') ++ "\n"])
      ∧ (displayPods pods s).stdout.length = s.stdout.length + 3 * pods.Items.length
      ∧ (displayPods pods s).calls = s.calls
      ∧ (displayPods pods s).exitCode = s.exitCode
      ∧ displayPods ⟨[]⟩ s = s := by
  have hsep : String.mk (List.replicate 40 '-') ++ "\n"
      = "----------------------------------------\n" := by decide
  have hlen : ∀ items : List Pod, (items.flatMap specPodBlock).length = 3 * items.length := by
    intro items
    induction items with
    | nil => simp
    | cons p ps ih => simp [List.flatMap_cons, ih, specPodBlock]; omega
  refine ⟨?_, ?_, ?_, ?_, ?_⟩
  · rw [displayPods_eq, hsep]; rfl
  · rw [displayPods_eq]; simp [hlen]
  · rw [displayPods_eq]
  · rw [displayPods_eq]
  · rw [displayPods_eq]; simp

theorem string_append_right_inj (a b c : String) : a ++ b = a ++ c ↔ b = c := by
  constructor
  · intro h
    have h2 := congrArg String.data h
    simp only [String.data_append, List.append_cancel_left_eq] at h2
    exact String.ext h2
  · intro h; rw [h]

theorem getPodDiskUsage_stdout (c : Clientset) (n ns : String) (hist : List Call) :
    (getPodDiskUsage c n ns ⟨[], hist, none⟩).stdout
      = match c.podsList hist ns ⟨"spec.nodeName=" ++ n⟩ with
        | .error err => ["Error getting pods: " ++ err ++ "\n"]
        | .ok pods => pods.Items.flatMap specPodBlock := by
  by_cases h : ns = ""
  · subst h
    simp only [getPodDiskUsage]
    cases c.podsList hist "" ⟨"spec.nodeName=" ++ n⟩ <;>
      simp [displayPods_eq, Proc.print, Proc.record]
  · simp only [getPodDiskUsage, if_pos h, ne_eq, not_false_eq_true]
    cases c.podsList hist ns ⟨"spec.nodeName=" ++ n⟩ <;>
      simp [displayPods_eq, Proc.print, Proc.record]

theorem isNodeHeader_header (name : String) : isNodeHeader ("Node: " ++ name ++ "\n") = true := by
  simp [isNodeHeader, String.data_append, List.append_assoc]

theorem not_isNodeHeader_of_head (line : String) (ch : Char) (rest : List Char)
    (h : line.data = ch :: rest) (hc : ch ≠ 'N') : isNodeHeader line = false := by
  have hd : "Node: ".data = ['N', 'o', 'd', 'e', ':', ' '] := by decide
  simp [isNodeHeader, hd, h, List.isPrefixOf, hc.symm]

theorem specPodBlock_no_header (pod : Pod) :
    ∀ line ∈ specPodBlock pod, isNodeHeader line = false := by
  intro line hl
  simp only [specPodBlock, List.mem_cons, List.mem_singleton, List.not_mem_nil, or_false] at hl
  rcases hl with h | h | h
  · subst h
    exact not_isNodeHeader_of_head _ 'P'
      ("od: ".data ++ pod.Name.data ++ ", Namespace: ".data ++ pod.Namespace.data ++ "\n".data)
      (by simp [String.data_append]) (by decide)
  · subst h
    exact not_isNodeHeader_of_head _ 'V'
      ("olume Count: ".data ++ (toString pod.Spec.Volumes.length).data ++ "\n".data)
      (by simp [String.data_append]) (by decide)
  · subst h
    exact not_isNodeHeader_of_head _ '-' _ rfl (by decide)

theorem getPodDiskUsage_no_header (c : Clientset) (n ns : String) (hist : List Call) :
    ∀ line ∈ (getPodDiskUsage c n ns ⟨[], hist, none⟩).stdout, isNodeHeader line = false := by
  intro line hl
  rw [getPodDiskUsage_stdout] at hl
  cases hp : c.podsList hist ns ⟨"spec.nodeName=" ++ n⟩ with
  | error err =>
    rw [hp] at hl
    simp only [List.mem_singleton] at hl
    subst hl
    exact not_isNodeHeader_of_head _ 'E'
      ("rror getting pods: ".data ++ err.data ++ "\n".data)
      (by simp [String.data_append]) (by decide)
  | ok pods =>
    rw [hp] at hl
    simp only [List.mem_flatMap] at hl
    obtain ⟨pod, _, hpod⟩ := hl
    exact specPodBlock_no_header pod line hpod

theorem specAllNodesOutput_countP (c : Clientset) (ns : String) (nodes : List Node)
    (hist : List Call) :
    (specAllNodesOutput c ns hist nodes).countP isNodeHeader = nodes.length := by
  induction nodes generalizing hist with
  | nil => simp [specAllNodesOutput]
  | cons n rest ih =>
    have h0 : ((getPodDiskUsage c n.Name ns ⟨[], hist, none⟩).stdout).countP isNodeHeader = 0 := by
      rw [List.countP_eq_zero]
      intro line hl
      simp [getPodDiskUsage_no_header c n.Name ns hist line hl]
    simp [specAllNodesOutput, List.countP_cons, List.countP_append, isNodeHeader_header, h0, ih]

theorem listNodesDiskUsage_ok (g : Globals) (c : Clientset) (s : Proc) (nodes : NodeList)
    (hn : c.nodesList s.calls ⟨""⟩ = .ok nodes) :
    listNodesDiskUsage g c s
      = ⟨s.stdout ++ specAllNodesOutput c g.namespace_ (s.calls ++ [.nodesList ⟨""⟩]) nodes.Items,
          s.calls ++ .nodesList ⟨""⟩ :: nodes.Items.map (fun n => specPodsCall g.namespace_ n.Name),
          s.exitCode⟩ := by
  simp only [listNodesDiskUsage, hn]
  rw [nodeLoop_eq]
  simp [Proc.record]

theorem listNodesDiskUsage_error (g : Globals) (c : Clientset) (s : Proc) (err : String)
    (hn : c.nodesList s.calls ⟨""⟩ = .error err) :
    listNodesDiskUsage g c s
      = ⟨s.stdout ++ ["Error getting nodes: " ++ err ++ "\n"], s.calls ++ [.nodesList ⟨""⟩],
          s.exitCode⟩ := by
  simp [listNodesDiskUsage, hn, Proc.record, Proc.print]

theorem Run_of_client (env : Env) (g : Globals) (c : Clientset)
    (hc : (specClient env).2 = .ok c) :
    Run env g Proc.start
      = if g.nodeName = "" then listNodesDiskUsage g c ⟨[], (specClient env).1, none⟩
        else getPodDiskUsage c g.nodeName g.namespace_ ⟨[], (specClient env).1, none⟩ := by
  simp only [specClient, specCredentials] at hc ⊢
  simp only [Run]
  cases hb : env.buildConfigFromFlags "" (env.getenv "KUBECONFIG") with
  | ok cfg =>
    simp only [hb] at hc ⊢
    simp only [hc]
    simp [Proc.record, Proc.start]
  | error e =>
    simp only [hb] at hc ⊢
    cases hi : env.inClusterConfig with
    | ok cfg =>
      simp only [hi] at hc ⊢
      simp only [hc]
      simp [Proc.record, Proc.start]
    | error e2 => simp [hi] at hc

/-- C2: for every node name S and namespace filter N, `getPodDiskUsage` issues
exactly one request, the pod listing that targets namespace N (the empty
namespace, meaning all namespaces, when N is empty) with the field selector
`spec.nodeName=` followed by S, and it never exits. Against a server that
applies the selector, what is printed is the blocks of exactly the stored pods
whose node is S and, when N is non-empty, whose namespace is N; a pod of
`kube-system` on `node-a` gives no output and no error line for node `node-a`,
namespace `default`. -/
theorem getPodDiskUsage_request_scope (c : Clientset) (S N : String) (s : Proc)
    (nodes : List Node) (store : List Pod) :
    (getPodDiskUsage c S N s).calls = s.calls ++ [Call.podsList N ⟨"spec.nodeName=" ++ S⟩]
      ∧ (getPodDiskUsage c S N s).exitCode = s.exitCode
      ∧ (getPodDiskUsage (selectorServer nodes store) S N s).stdout
          = s.stdout ++ (store.filter (fun p =>
              decide (p.Spec.NodeName = S) && (decide (N = "") || decide (p.Namespace = N)))).flatMap
                (fun pod =>
                  ["Pod: " ++ pod.Name ++ ", Namespace: " ++ pod.Namespace ++ "\n",
                   "Volume Count: " ++ toString pod.Spec.Volumes.length ++ "\n",
                   "----------------------------------------\n"])
      ∧ getPodDiskUsage (selectorServer [⟨"node-a"⟩] [exSystemPod]) "node-a" "default" Proc.start
          = ⟨[], [Call.podsList "default" ⟨"spec.nodeName=node-a"⟩], none⟩ := by
  refine ⟨?_, ?_, ?_, ?_⟩
  · rw [getPodDiskUsage_eq]; rfl
  · rw [getPodDiskUsage_eq]
  · rw [getPodDiskUsage_eq, getPodDiskUsage_stdout]
    simp only [selectorServer]
    congr 2
    apply List.filter_congr
    intro p _
    have hsel : ("spec.nodeName=" ++ S == "spec.nodeName=" ++ p.Spec.NodeName)
        = decide (p.Spec.NodeName = S) := by
      by_cases h1 : p.Spec.NodeName = S
      · simp [h1]
      · have h1b : S ≠ p.Spec.NodeName := fun h => h1 h.symm
        simp [h1, h1b, string_append_right_inj]
    rw [hsel]
    by_cases h1 : p.Spec.NodeName = S <;> by_cases h2 : N = "" <;>
      by_cases h3 : p.Namespace = N <;> simp [h1, h2, h3]
  · decide

theorem specClient_log_no_list (env : Env) :
    ∀ x ∈ (specClient env).1, Call.isPodsList x = false ∧ Call.isNodesList x = false := by
  intro x hx
  simp only [specClient, specCredentials] at hx
  cases hb : env.buildConfigFromFlags "" (env.getenv "KUBECONFIG") with
  | ok cfg => simp [hb] at hx; rcases hx with h | h <;> subst h <;> exact ⟨rfl, rfl⟩
  | error e =>
    simp only [hb] at hx
    cases hi : env.inClusterConfig with
    | ok cfg => simp [hi] at hx; rcases hx with h | h | h <;> subst h <;> exact ⟨rfl, rfl⟩
    | error e2 => simp [hi] at hx; rcases hx with h | h <;> subst h <;> exact ⟨rfl, rfl⟩

theorem specClient_log_filter_pods (env : Env) :
    (specClient env).1.filter Call.isPodsList = [] := by
  rw [List.filter_eq_nil_iff]
  intro x hx
  simp [(specClient_log_no_list env x hx).1]

theorem specClient_log_filter_nodes (env : Env) :
    (specClient env).1.filter Call.isNodesList = [] := by
  rw [List.filter_eq_nil_iff]
  intro x hx
  simp [(specClient_log_no_list env x hx).2]

/-- C3: when the node filter is empty, a client was obtained and the node
listing answers with the nodes n1..nk, the run makes, after the node listing,
exactly k pod-listing calls, one per node in list order, each with that node's
selector and the namespace filter; it prints exactly k header lines, and its
output is the concatenation over the nodes of the line `Node: <name>` followed
by the output of the single-node report for that node; it does not exit. -/
theorem Run_all_nodes (env : Env) (g : Globals) (c : Clientset) (nodes : NodeList)
    (hnode : g.nodeName = "")
    (hc : (specClient env).2 = .ok c)
    (hn : c.nodesList (specClient env).1 ⟨""⟩ = .ok nodes) :
    (Run env g Proc.start).calls
        = (specClient env).1 ++ Call.nodesList ⟨""⟩ ::
            nodes.Items.map (fun n => Call.podsList g.namespace_ ⟨"spec.nodeName=" ++ n.Name⟩)
      ∧ ((Run env g Proc.start).calls.filter Call.isPodsList).length = nodes.Items.length
      ∧ (Run env g Proc.start).stdout
          = specAllNodesOutput c g.namespace_ ((specClient env).1 ++ [Call.nodesList ⟨""⟩])
              nodes.Items
      ∧ (Run env g Proc.start).stdout.countP isNodeHeader = nodes.Items.length
      ∧ (Run env g Proc.start).exitCode = none := by
  have hrun := Run_of_client env g c hc
  rw [if_pos hnode, listNodesDiskUsage_ok g c _ nodes hn] at hrun
  rw [hrun]
  refine ⟨rfl, ?_, by simp, ?_, rfl⟩
  · have h1 := specClient_log_filter_pods env
    have h2 : ∀ l : List Node,
        (l.map (fun n => specPodsCall g.namespace_ n.Name)).filter Call.isPodsList
          = l.map (fun n => specPodsCall g.namespace_ n.Name) := by
      intro l
      rw [List.filter_eq_self]
      intro x hx
      simp only [List.mem_map] at hx
      obtain ⟨n, _, rfl⟩ := hx
      rfl
    simp [List.filter_append, h1, List.filter_cons, Call.isNodesList, Call.isPodsList, h2]
  · simp [specAllNodesOutput_countP]

/-- Witness for C3: nodes `node-a` and `node-b`, `p1` (namespace `default`, two
volumes) on `node-a`, nothing on `node-b`, no filter. -/
theorem Run_all_nodes_witness :
    (Run exEnv ⟨"", ""⟩ Proc.start).stdout
      = ["Node: node-a\n", "Pod: p1, Namespace: default\n", "Volume Count: 2\n",
         "----------------------------------------\n", "Node: node-b\n"] :=
  (Run_all_nodes exEnv ⟨"", ""⟩ exCluster ⟨[⟨"node-a"⟩, ⟨"node-b"⟩]⟩ rfl rfl rfl).2.2.1.trans
    (by decide)

/-- C4: when the node filter is a non-empty name S and a client was obtained,
the run makes exactly one pod-listing call, for the selector of S and the
namespace filter, as its last call, makes no node-listing call, prints only the
single-node report, no line of which is a `Node:` header, and does not exit. -/
theorem Run_single_node (env : Env) (g : Globals) (c : Clientset)
    (hnode : g.nodeName ≠ "")
    (hc : (specClient env).2 = .ok c) :
    (Run env g Proc.start).calls
        = (specClient env).1 ++ [Call.podsList g.namespace_ ⟨"spec.nodeName=" ++ g.nodeName⟩]
      ∧ (Run env g Proc.start).calls.filter Call.isPodsList
          = [Call.podsList g.namespace_ ⟨"spec.nodeName=" ++ g.nodeName⟩]
      ∧ (Run env g Proc.start).calls.filter Call.isNodesList = []
      ∧ (Run env g Proc.start).stdout
          = (getPodDiskUsage c g.nodeName g.namespace_ ⟨[], (specClient env).1, none⟩).stdout
      ∧ (∀ line ∈ (Run env g Proc.start).stdout, isNodeHeader line = false)
      ∧ (Run env g Proc.start).exitCode = none := by
  have h1 := specClient_log_filter_pods env
  have h2 := specClient_log_filter_nodes env
  have hrun := Run_of_client env g c hc
  rw [if_neg hnode] at hrun
  have hrun2 := hrun
  rw [getPodDiskUsage_eq] at hrun
  refine ⟨?_, ?_, ?_, ?_, ?_, ?_⟩
  · rw [hrun]; rfl
  · rw [hrun]
    simp [List.filter_append, h1, specPodsCall, Call.isPodsList]
  · rw [hrun]
    simp [List.filter_append, h2, specPodsCall, Call.isNodesList]
  · rw [hrun2]
  · rw [hrun2]
    exact getPodDiskUsage_no_header c g.nodeName g.namespace_ _
  · rw [hrun]

/-- Witness for C4: node filter `node-a`, namespace filter `default`. -/
theorem Run_single_node_witness :
    (Run exEnv ⟨"default", "node-a"⟩ Proc.start).calls.filter Call.isPodsList
      = [Call.podsList "default" ⟨"spec.nodeName=node-a"⟩] :=
  (Run_single_node exEnv ⟨"default", "node-a"⟩ exCluster (by decide) rfl).2.1

/-- C6: when the node filter is empty, a client was obtained and the node
listing fails with error e, the whole output of the program is the single line
`Error getting nodes: <e>`, the node listing is the last call (so no pod
listing is made), no header is printed, and the exit status is 0. -/
theorem main_node_listing_fails (env : Env) (g : Globals) (c : Clientset) (e : String)
    (hnode : g.nodeName = "")
    (hc : (specClient env).2 = .ok c)
    (hn : c.nodesList (specClient env).1 ⟨""⟩ = .error e) :
    (main env (.run g) Proc.start).stdout = ["Error getting nodes: " ++ e ++ "\n"]
      ∧ (main env (.run g) Proc.start).calls = (specClient env).1 ++ [Call.nodesList ⟨""⟩]
      ∧ (main env (.run g) Proc.start).calls.filter Call.isPodsList = []
      ∧ (main env (.run g) Proc.start).stdout.countP isNodeHeader = 0
      ∧ exitStatus (main env (.run g) Proc.start) = 0 := by
  have h1 := specClient_log_filter_pods env
  have hrun := Run_of_client env g c hc
  rw [if_pos hnode, listNodesDiskUsage_error g c _ e hn] at hrun
  have hmain : main env (.run g) Proc.start
      = ⟨["Error getting nodes: " ++ e ++ "\n"], (specClient env).1 ++ [Call.nodesList ⟨""⟩],
          none⟩ := by
    simp [main, Execute, hrun]
  rw [hmain]
  refine ⟨rfl, rfl, ?_, ?_, rfl⟩
  · simp [List.filter_append, h1, Call.isPodsList]
  · have : isNodeHeader ("Error getting nodes: " ++ e ++ "\n") = false :=
      not_isNodeHeader_of_head _ 'E' ("rror getting nodes: ".data ++ e.data ++ "\n".data)
        (by simp [String.data_append]) (by decide)
    simp [this]

/-- Witness for C6: the node listing of the cluster answers `connection refused`. -/
theorem main_node_listing_fails_witness :
    (main exBrokenEnv (.run ⟨"", ""⟩) Proc.start).stdout
        = ["Error getting nodes: connection refused\n"]
      ∧ exitStatus (main exBrokenEnv (.run ⟨"", ""⟩) Proc.start) = 0 :=
  ⟨(main_node_listing_fails exBrokenEnv ⟨"", ""⟩ exBrokenCluster "connection refused"
      rfl rfl rfl).1,
    (main_node_listing_fails exBrokenEnv ⟨"", ""⟩ exBrokenCluster "connection refused"
      rfl rfl rfl).2.2.2.2⟩

theorem getPodDiskUsage_congr (c c' : Clientset) (n ns : String) (s : Proc)
    (h : c'.podsList s.calls ns ⟨"spec.nodeName=" ++ n⟩
      = c.podsList s.calls ns ⟨"spec.nodeName=" ++ n⟩) :
    getPodDiskUsage c' n ns s = getPodDiskUsage c n ns s := by
  by_cases hns : ns = ""
  · subst hns
    simp only [getPodDiskUsage, h]
  · simp only [getPodDiskUsage, if_pos hns, ne_eq, not_false_eq_true, h]

theorem specAllNodesOutput_append (c : Clientset) (ns : String) (xs ys : List Node)
    (hist : List Call) :
    specAllNodesOutput c ns hist (xs ++ ys)
      = specAllNodesOutput c ns hist xs
          ++ specAllNodesOutput c ns (hist ++ xs.map (fun n => specPodsCall ns n.Name)) ys := by
  induction xs generalizing hist with
  | nil => simp [specAllNodesOutput]
  | cons x rest ih => simp [specAllNodesOutput, ih, List.append_assoc]

theorem specAllNodesOutput_congr (c c' : Clientset) (ns : String) (L : Nat)
    (hsame : ∀ hist ns o, hist.length ≠ L → c'.podsList hist ns o = c.podsList hist ns o)
    (nodes : List Node) (hist : List Call)
    (hrange : hist.length + nodes.length ≤ L ∨ L < hist.length) :
    specAllNodesOutput c' ns hist nodes = specAllNodesOutput c ns hist nodes := by
  induction nodes generalizing hist with
  | nil => simp [specAllNodesOutput]
  | cons n rest ih =>
    have hne : hist.length ≠ L := by
      rcases hrange with h | h
      · simp only [List.length_cons] at h; omega
      · omega
    have hrest : (hist ++ [specPodsCall ns n.Name]).length + rest.length ≤ L
        ∨ L < (hist ++ [specPodsCall ns n.Name]).length := by
      rcases hrange with h | h
      · left; simp only [List.length_cons] at h; simp; omega
      · right; simp; omega
    simp only [specAllNodesOutput]
    rw [ih _ hrest, getPodDiskUsage_congr c c' n.Name ns ⟨[], hist, none⟩ (hsame _ _ _ hne)]

/-- C5: in the all-nodes path, when the pod listing fails with error e for the
node ni that stands between the nodes `pre` and the nodes `post`, the output
is the blocks of `pre`, then the header of ni and the line
`Error getting pods: <e>`, then the blocks of `post`; the pod-listing calls
are one per node, ni once and the later nodes included. Had the call for ni
succeeded with a pod list (a cluster that answers every other request alike),
the blocks of `pre` and of `post` and the calls would be the same, only the
error line replaced by the pod lines of ni. -/
theorem listNodesDiskUsage_pod_listing_fails (g : Globals) (c c' : Clientset) (s : Proc)
    (pre post : List Node) (ni : Node) (e : String) (pods : PodList) (histI : List Call)
    (hhist : histI = s.calls ++ Call.nodesList ⟨""⟩ ::
      pre.map (fun n => Call.podsList g.namespace_ ⟨"spec.nodeName=" ++ n.Name⟩))
    (hn : c.nodesList s.calls ⟨""⟩ = .ok ⟨pre ++ ni :: post⟩)
    (hfail : c.podsList histI g.namespace_ ⟨"spec.nodeName=" ++ ni.Name⟩ = .error e)
    (hn' : c'.nodesList s.calls ⟨""⟩ = .ok ⟨pre ++ ni :: post⟩)
    (hok : c'.podsList histI g.namespace_ ⟨"spec.nodeName=" ++ ni.Name⟩ = .ok pods)
    (hsame : ∀ hist ns o, hist ≠ histI → c'.podsList hist ns o = c.podsList hist ns o) :
    (listNodesDiskUsage g c s).stdout
        = s.stdout ++ specAllNodesOutput c g.namespace_ (s.calls ++ [Call.nodesList ⟨""⟩]) pre
            ++ ["Node: " ++ ni.Name ++ "\n", "Error getting pods: " ++ e ++ "\n"]
            ++ specAllNodesOutput c g.namespace_
                (histI ++ [Call.podsList g.namespace_ ⟨"spec.nodeName=" ++ ni.Name⟩]) post
      ∧ (listNodesDiskUsage g c' s).stdout
        = s.stdout ++ specAllNodesOutput c g.namespace_ (s.calls ++ [Call.nodesList ⟨""⟩]) pre
            ++ ("Node: " ++ ni.Name ++ "\n") :: (displayPods pods ⟨[], [], none⟩).stdout
            ++ specAllNodesOutput c g.namespace_
                (histI ++ [Call.podsList g.namespace_ ⟨"spec.nodeName=" ++ ni.Name⟩]) post
      ∧ (listNodesDiskUsage g c s).calls
        = s.calls ++ Call.nodesList ⟨""⟩ :: (pre ++ ni :: post).map
            (fun n => Call.podsList g.namespace_ ⟨"spec.nodeName=" ++ n.Name⟩)
      ∧ (listNodesDiskUsage g c' s).calls = (listNodesDiskUsage g c s).calls
      ∧ (listNodesDiskUsage g c s).exitCode = s.exitCode := by
  have hhist2 : histI = (s.calls ++ [Call.nodesList ⟨""⟩])
      ++ pre.map (fun n => specPodsCall g.namespace_ n.Name) := by
    rw [hhist]; simp [specPodsCall]
  have hlen : histI.length = s.calls.length + 1 + pre.length := by
    rw [hhist2]; simp; omega
  have hsameL : ∀ hist ns o, hist.length ≠ histI.length →
      c'.podsList hist ns o = c.podsList hist ns o := by
    intro hist ns o hl
    exact hsame hist ns o (fun h => hl (by rw [h]))
  have hA : specAllNodesOutput c' g.namespace_ (s.calls ++ [Call.nodesList ⟨""⟩]) pre
      = specAllNodesOutput c g.namespace_ (s.calls ++ [Call.nodesList ⟨""⟩]) pre :=
    specAllNodesOutput_congr c c' g.namespace_ histI.length hsameL pre _
      (Or.inl (by rw [hlen]; simp))
  have hB : specAllNodesOutput c' g.namespace_
        (histI ++ [Call.podsList g.namespace_ ⟨"spec.nodeName=" ++ ni.Name⟩]) post
      = specAllNodesOutput c g.namespace_
        (histI ++ [Call.podsList g.namespace_ ⟨"spec.nodeName=" ++ ni.Name⟩]) post :=
    specAllNodesOutput_congr c c' g.namespace_ histI.length hsameL post _
      (Or.inr (by simp))
  have hrc : (getPodDiskUsage c ni.Name g.namespace_ ⟨[], histI, none⟩).stdout
      = ["Error getting pods: " ++ e ++ "\n"] := by
    rw [getPodDiskUsage_stdout, hfail]
  have hrc' : (getPodDiskUsage c' ni.Name g.namespace_ ⟨[], histI, none⟩).stdout
      = (displayPods pods ⟨[], [], none⟩).stdout := by
    rw [getPodDiskUsage_stdout, hok, displayPods_eq]; simp
  rw [listNodesDiskUsage_ok g c s _ hn, listNodesDiskUsage_ok g c' s _ hn']
  refine ⟨?_, ?_, rfl, rfl, rfl⟩
  · simp only [specAllNodesOutput_append, specAllNodesOutput, ← hhist2, hrc]
    simp [specPodsCall, List.append_assoc]
  · simp only [specAllNodesOutput_append, specAllNodesOutput, ← hhist2, hrc', hA]
    rw [show specPodsCall g.namespace_ ni.Name
      = Call.podsList g.namespace_ ⟨"spec.nodeName=" ++ ni.Name⟩ from rfl, hB]
    simp [List.append_assoc]

/-- Witness for C5: three nodes, the pod listing for `node-b` times out. -/
theorem listNodesDiskUsage_pod_listing_fails_witness :
    (listNodesDiskUsage ⟨"", ""⟩ exFlakyCluster Proc.start).stdout
      = ["Node: node-a\n", "Pod: p1, Namespace: default\n", "Volume Count: 2\n",
         "----------------------------------------\n",
         "Node: node-b\n", "Error getting pods: timeout\n", "Node: node-c\n"] :=
  (listNodesDiskUsage_pod_listing_fails ⟨"", ""⟩ exFlakyCluster exHealedCluster Proc.start
    [⟨"node-a"⟩] [⟨"node-c"⟩] ⟨"node-b"⟩ "timeout" ⟨[]⟩ exHistB rfl rfl rfl rfl rfl
    (by intro hist ns o h; simp [exHealedCluster, h])).1.trans (by decide)

theorem listNodesDiskUsage_exitCode (g : Globals) (c : Clientset) (s : Proc) :
    (listNodesDiskUsage g c s).exitCode = s.exitCode := by
  cases hn : c.nodesList s.calls ⟨""⟩ with
  | error err => rw [listNodesDiskUsage_error g c s err hn]
  | ok nodes => rw [listNodesDiskUsage_ok g c s nodes hn]

theorem listNodesDiskUsage_calls (g : Globals) (c : Clientset) (s : Proc) :
    ∃ rest, (listNodesDiskUsage g c s).calls = s.calls ++ rest
      ∧ ∀ x ∈ rest, Call.isListing x = true := by
  cases hn : c.nodesList s.calls ⟨""⟩ with
  | error err =>
    rw [listNodesDiskUsage_error g c s err hn]
    exact ⟨[Call.nodesList ⟨""⟩], rfl, by simp [Call.isListing, Call.isNodesList]⟩
  | ok nodes =>
    rw [listNodesDiskUsage_ok g c s nodes hn]
    refine ⟨_, rfl, ?_⟩
    intro x hx
    simp only [List.mem_cons, List.mem_map] at hx
    rcases hx with h | ⟨n, _, h⟩
    · subst h; rfl
    · subst h; rfl

theorem Run_of_fatal (env : Env) (g : Globals) (hf : specFatal env = true) :
    (Run env g Proc.start).calls = (specClient env).1
      ∧ (Run env g Proc.start).exitCode = some 1 := by
  simp only [specFatal, specClient, specCredentials] at hf ⊢
  simp only [Run]
  cases hb : env.buildConfigFromFlags "" (env.getenv "KUBECONFIG") with
  | ok cfg =>
    simp only [hb] at hf ⊢
    cases hcl : env.newForConfig cfg with
    | ok c => simp [hcl] at hf
    | error e => simp [Proc.record, Proc.print, Proc.osExit, Proc.start]
  | error e =>
    simp only [hb] at hf ⊢
    cases hi : env.inClusterConfig with
    | ok cfg =>
      simp only [hi] at hf ⊢
      cases hcl : env.newForConfig cfg with
      | ok c => simp [hcl] at hf
      | error e => simp [Proc.record, Proc.print, Proc.osExit, Proc.start]
    | error e2 => simp [Proc.record, Proc.print, Proc.osExit, Proc.start]

theorem Run_calls (env : Env) (g : Globals) :
    ∃ rest, (Run env g Proc.start).calls = (specClient env).1 ++ rest
      ∧ ∀ x ∈ rest, Call.isListing x = true := by
  cases hc : (specClient env).2 with
  | error e =>
    have hf : specFatal env = true := by simp [specFatal, hc]
    exact ⟨[], by simp [(Run_of_fatal env g hf).1], by simp⟩
  | ok c =>
    rw [Run_of_client env g c hc]
    by_cases hnode : g.nodeName = ""
    · rw [if_pos hnode]
      exact listNodesDiskUsage_calls g c _
    · rw [if_neg hnode, getPodDiskUsage_eq]
      exact ⟨[specPodsCall g.namespace_ g.nodeName], rfl, by
        intro x hx
        simp only [List.mem_singleton] at hx
        subst hx; rfl⟩

theorem Run_exitCode (env : Env) (g : Globals) :
    (Run env g Proc.start).exitCode = if specFatal env = true then some 1 else none := by
  by_cases hf : specFatal env = true
  · rw [if_pos hf, (Run_of_fatal env g hf).2]
  · rw [if_neg hf]
    cases hc : (specClient env).2 with
    | error e => exact absurd (by simp [specFatal, hc]) hf
    | ok c =>
      rw [Run_of_client env g c hc]
      by_cases hnode : g.nodeName = ""
      · rw [if_pos hnode, listNodesDiskUsage_exitCode]
      · rw [if_neg hnode, getPodDiskUsage_eq]

theorem main_run (env : Env) (g : Globals) :
    main env (.run g) Proc.start = Run env g Proc.start := by
  simp only [main, Execute]
  cases h : (Run env g Proc.start).exitCode <;> simp

/-- C7, counterexample: with working credentials and a working client, a
command line that the dispatcher rejects ends with exit status 1, so a failure
status does not imply that credential or client construction failed. -/
theorem main_exit_status_claim_fails :
    ¬ (exitStatus (main exEnv (.usageError "unknown flag: --bogus") Proc.start) ≠ 0
        ↔ specFatal exEnv = true) := by
  decide

/-- C7, amended: `main` ends with a failure status, which is then 1, exactly
when `Execute` returns an error without running the command, or the command
runs and credential construction fails by both methods or client construction
from the obtained credentials fails; in every other case, whatever the node
listing and the pod listings answer, the status is 0. -/
theorem main_exit_status (env : Env) (d : Dispatch) :
    (exitStatus (main env d Proc.start) ≠ 0
        ↔ (∃ err, d = .usageError err) ∨ (∃ g, d = .run g ∧ specFatal env = true))
      ∧ (exitStatus (main env d Proc.start) = 0 ∨ exitStatus (main env d Proc.start) = 1)
      ∧ (specFatal env = true
        ↔ (∃ e1 e2, env.buildConfigFromFlags "" (env.getenv "KUBECONFIG") = .error e1
              ∧ env.inClusterConfig = .error e2)
          ∨ (∃ cfg e, (env.buildConfigFromFlags "" (env.getenv "KUBECONFIG") = .ok cfg
                ∨ ((∃ e1, env.buildConfigFromFlags "" (env.getenv "KUBECONFIG") = .error e1)
                    ∧ env.inClusterConfig = .ok cfg))
              ∧ env.newForConfig cfg = .error e)) := by
  have hfatal : specFatal env = true
      ↔ (∃ e1 e2, env.buildConfigFromFlags "" (env.getenv "KUBECONFIG") = .error e1
            ∧ env.inClusterConfig = .error e2)
        ∨ (∃ cfg e, (env.buildConfigFromFlags "" (env.getenv "KUBECONFIG") = .ok cfg
              ∨ ((∃ e1, env.buildConfigFromFlags "" (env.getenv "KUBECONFIG") = .error e1)
                  ∧ env.inClusterConfig = .ok cfg))
            ∧ env.newForConfig cfg = .error e) := by
    simp only [specFatal, specClient, specCredentials]
    cases hb : env.buildConfigFromFlags "" (env.getenv "KUBECONFIG") with
    | ok cfg =>
      cases hcl : env.newForConfig cfg with
      | ok c =>
        simp only [hcl, Bool.false_eq_true, false_iff]
        rintro (⟨e1, e2, h, _⟩ | ⟨cfg2, e, h | ⟨⟨e1, h⟩, _⟩, h2⟩)
        · cases h
        · cases h; rw [hcl] at h2; cases h2
        · cases h
      | error e =>
        simp only [hcl, true_iff]
        exact Or.inr ⟨cfg, e, Or.inl rfl, hcl⟩
    | error e1 =>
      cases hi : env.inClusterConfig with
      | ok cfg =>
        cases hcl : env.newForConfig cfg with
        | ok c =>
          simp only [hcl, Bool.false_eq_true, false_iff]
          rintro (⟨e1, e2, _, h⟩ | ⟨cfg2, e, h | ⟨_, h⟩, h2⟩)
          · cases h
          · cases h
          · cases h; rw [hcl] at h2; cases h2
        | error e =>
          simp only [hcl, true_iff]
          exact Or.inr ⟨cfg, e, Or.inr ⟨⟨e1, rfl⟩, rfl⟩, hcl⟩
      | error e2 =>
        simp only [true_iff]
        exact Or.inl ⟨e1, e2, rfl, rfl⟩
  refine ⟨?_, ?_, hfatal⟩
  all_goals cases d with
    | usageError err => simp [main, Execute, exitStatus, Proc.start, Proc.print, Proc.osExit]
    | helpOnly => simp [main, Execute, exitStatus, Proc.start]
    | run g =>
      rw [main_run]
      simp only [exitStatus, Run_exitCode]
      by_cases hf : specFatal env = true <;> simp [hf]

theorem Run_credential_calls (env : Env) (g : Globals) :
    (Run env g Proc.start).calls.filter (fun x => !x.isListing) = (specClient env).1 := by
  obtain ⟨rest, hcalls, hrest⟩ := Run_calls env g
  rw [hcalls, List.filter_append]
  have h1 : rest.filter (fun x => !x.isListing) = [] := by
    rw [List.filter_eq_nil_iff]
    intro x hx
    simp [hrest x hx]
  have h2 : (specClient env).1.filter (fun x => !x.isListing) = (specClient env).1 := by
    rw [List.filter_eq_self]
    intro x hx
    have := specClient_log_no_list env x hx
    simp [Call.isListing, this.1, this.2]
  rw [h1, h2, List.append_nil]

theorem Run_mem_calls (env : Env) (g : Globals) (x : Call) (hx : x.isListing = false) :
    x ∈ (Run env g Proc.start).calls ↔ x ∈ (specClient env).1 := by
  obtain ⟨rest, hcalls, hrest⟩ := Run_calls env g
  rw [hcalls, List.mem_append]
  constructor
  · rintro (h | h)
    · exact h
    · rw [hrest x h] at hx; cases hx
  · exact Or.inl

/-- C9: credential resolution is an ordered fallback. If the `KUBECONFIG`
attempt succeeds, the calls of the run other than the list requests are that
attempt followed by the construction of the client from exactly its
credentials, and the run is the same whatever the in-cluster source would
answer. If it fails and the in-cluster attempt succeeds, they are the two
attempts, once each and in that order, followed by the construction of the
client from the in-cluster credentials. If both fail the run prints the error
and exits with status 1 after the two attempts. The client is built from
in-cluster credentials exactly when the first attempt fails and the in-cluster
attempt succeeds. -/
theorem Run_credential_fallback (env : Env) (g : Globals) :
    (∀ cfg, env.buildConfigFromFlags "" (env.getenv "KUBECONFIG") = .ok cfg →
        (Run env g Proc.start).calls.filter (fun x => !x.isListing)
            = [Call.buildConfigFromFlags "" (env.getenv "KUBECONFIG"), Call.newForConfig cfg]
          ∧ ∀ ic, Run { env with inClusterConfig := ic } g Proc.start = Run env g Proc.start)
      ∧ (∀ e cfg, env.buildConfigFromFlags "" (env.getenv "KUBECONFIG") = .error e →
          env.inClusterConfig = .ok cfg →
          (Run env g Proc.start).calls.filter (fun x => !x.isListing)
            = [Call.buildConfigFromFlags "" (env.getenv "KUBECONFIG"), Call.inClusterConfig,
                Call.newForConfig cfg])
      ∧ (∀ e e2, env.buildConfigFromFlags "" (env.getenv "KUBECONFIG") = .error e →
          env.inClusterConfig = .error e2 →
          Run env g Proc.start
            = ⟨["Error creating config: " ++ e2 ++ "\n"],
                [Call.buildConfigFromFlags "" (env.getenv "KUBECONFIG"), Call.inClusterConfig],
                some 1⟩)
      ∧ (∀ cfg, (Call.inClusterConfig ∈ (Run env g Proc.start).calls
            ∧ Call.newForConfig cfg ∈ (Run env g Proc.start).calls)
          ↔ ((∃ e, env.buildConfigFromFlags "" (env.getenv "KUBECONFIG") = .error e)
            ∧ env.inClusterConfig = .ok cfg)) := by
  refine ⟨?_, ?_, ?_, ?_⟩
  · intro cfg hb
    refine ⟨?_, ?_⟩
    · rw [Run_credential_calls]
      simp [specClient, specCredentials, hb]
    · intro ic
      simp [Run, hb]
  · intro e cfg hb hi
    rw [Run_credential_calls]
    simp [specClient, specCredentials, hb, hi]
  · intro e e2 hb hi
    simp [Run, hb, hi, Proc.record, Proc.print, Proc.osExit, Proc.start]
  · intro cfg
    rw [Run_mem_calls env g Call.inClusterConfig rfl,
      Run_mem_calls env g (Call.newForConfig cfg) rfl]
    simp only [specClient, specCredentials]
    cases hb : env.buildConfigFromFlags "" (env.getenv "KUBECONFIG") with
    | ok cfg0 => simp
    | error e =>
      cases hi : env.inClusterConfig with
      | ok cfg1 =>
        simp only [List.mem_append, List.mem_cons, List.mem_singleton, List.not_mem_nil,
          or_false, true_or, or_true, true_and, reduceCtorEq, false_or, Except.ok.injEq,
          Call.newForConfig.injEq]
        constructor
        · intro h; exact ⟨⟨e, rfl⟩, h.symm⟩
        · intro h; exact h.2.symm
      | error e2 => simp

/-- Witness for C9: no usable configuration file, working in-cluster credentials. -/
theorem Run_credential_fallback_witness :
    (Run exInClusterEnv ⟨"", "node-a"⟩ Proc.start).calls.filter (fun x => !x.isListing)
      = [Call.buildConfigFromFlags "" "", Call.inClusterConfig,
          Call.newForConfig ⟨"https://10.0.0.1:443"⟩] :=
  (Run_credential_fallback exInClusterEnv ⟨"", "node-a"⟩).2.1
    "invalid configuration: no configuration has been provided" ⟨"https://10.0.0.1:443"⟩ rfl rfl

/-- C10, the code at its only input: the start-up registration of the flags
does not succeed. Registering `namespace` with the two-character shorthand
`ns` panics in the flag library, before `node` is registered and before
`main` runs. -/
theorem init_panics :
    init = .error (.shorthandTooLong "ns") := by
  rfl

end KubectlDu
